import Mathlib

/-!
Verification of the derived-metrics and trend-statistics layer of the
Oklahoma flood dashboard (`app.py`).

The numeric event fields (economic loss, per-year series values) are modelled
as rationals, fatality and injury counts as integers, and the severity /
damage tiers as the strings the source returns.  The Mann-Kendall test needs
a square root and the standard normal CDF, so its `Z` and `p` components live
in `ℝ`; everything else is executable.
-/

open scoped BigOperators
open MeasureTheory ProbabilityTheory Real

namespace FloodsOKC

/-- Damage sub-score of `calculate_severity_level` (app.py lines 247-253):
3 for loss at least 50M, 2 for at least 10M, 1 for at least 1M, else 0. -/
def severityDamageScore (damage : ℚ) : ℕ :=
  if damage ≥ 50000000 then 3
  else if damage ≥ 10000000 then 2
  else if damage ≥ 1000000 then 1
  else 0

/-- Casualty sub-score of `calculate_severity_level` (app.py lines 255-266):
count-based score on fatalities+injuries, then raised to at least 2 when
there is any fatality. -/
def severityCasualtyScore (fatalities injuries : ℤ) : ℕ :=
  let total_casualties := fatalities + injuries
  let base : ℕ :=
    if total_casualties ≥ 10 then 3
    else if total_casualties ≥ 3 then 2
    else if total_casualties ≥ 1 then 1
    else 0
  if fatalities > 0 then max base 2 else base

/-- `calculate_severity_level` (app.py lines 242-276). -/
def calculate_severity_level (damage : ℚ) (fatalities injuries : ℤ) : String :=
  let max_score := max (severityDamageScore damage) (severityCasualtyScore fatalities injuries)
  if max_score ≥ 3 then "High"
  else if max_score ≥ 2 then "Medium"
  else "Low"

/-- The severity tier exactly as the specification phrases its reference
algorithm (spec section 4.1): two ordinal scores, a fatality floor on the
casualty score, then a tier from the maximum of the two scores. -/
def severitySpec (loss : ℚ) (fatalities injuries : ℤ) : String :=
  let damage_score : ℕ :=
    if 50000000 ≤ loss then 3
    else if 10000000 ≤ loss then 2
    else if 1000000 ≤ loss then 1
    else 0
  let count_score : ℕ :=
    if 10 ≤ fatalities + injuries then 3
    else if 3 ≤ fatalities + injuries then 2
    else if 1 ≤ fatalities + injuries then 1
    else 0
  let casualty_score : ℕ := if 0 < fatalities then max 2 count_score else count_score
  if 3 ≤ max damage_score casualty_score then "High"
  else if 2 ≤ max damage_score casualty_score then "Medium"
  else "Low"

/-- `calculate_damage_classification` (app.py lines 278-287). -/
def calculate_damage_classification (damage : ℚ) : String :=
  if damage ≥ 50000000 then "Catastrophic"
  else if damage ≥ 10000000 then "Major"
  else if damage ≥ 1000000 then "Moderate"
  else "Minor"

/-- `calculate_return_period` (app.py lines 289-299): sort descending, rank
1..n, Weibull exceedance probability m/(n+1), return period 1/probability.
Returned in source order: sorted values, return periods, exceedance
probabilities. -/
def calculate_return_period (annual_max_damages : List ℚ) :
    List ℚ × List ℚ × List ℚ :=
  let sorted_damages := annual_max_damages.insertionSort (· ≥ ·)
  let n := sorted_damages.length
  let ranks : List ℕ := (List.range n).map (fun k => k + 1)
  let exceedance_prob := ranks.map (fun m : ℕ => (m : ℚ) / ((n : ℚ) + 1))
  let return_periods := exceedance_prob.map (fun p => 1 / p)
  (sorted_damages, return_periods, exceedance_prob)

/-- `calculate_flood_frequency_curve` (app.py lines 751-757): guard the
empty input, otherwise delegate to `calculate_return_period`. -/
def calculate_flood_frequency_curve (damages : List ℚ) :
    List ℚ × List ℚ × List ℚ :=
  if damages.length = 0 then ([], [], [])
  else calculate_return_period damages

/-- The standard normal cumulative distribution function, as the integral of
the Gaussian density with mean 0 and variance 1.  Both the source (scipy's
`stats.norm.cdf`) and the spec refer to this same function. -/
noncomputable def stdNormalCdf (x : ℝ) : ℝ :=
  ∫ t in Set.Iic x, gaussianPDFReal 0 1 t

/-- The S statistic of `mann_kendall_trend_test` (app.py lines 699-706),
as the source's nested loops: outer index i over 0..n-2, inner j over
i+1..n-1, +1 when data[j] > data[i] and -1 when data[j] < data[i]. -/
def mannKendallS (data : List ℚ) : ℤ :=
  ∑ i ∈ Finset.range (data.length - 1),
    ∑ j ∈ Finset.Ico (i + 1) data.length,
      (if data.getD j 0 > data.getD i 0 then 1
       else if data.getD j 0 < data.getD i 0 then -1 else 0)

/-- The variance n(n-1)(2n+5)/18 of `mann_kendall_trend_test`
(app.py line 709). -/
def mannKendallVar (n : ℕ) : ℚ :=
  (n : ℚ) * ((n : ℚ) - 1) * (2 * (n : ℚ) + 5) / 18

/-- The Z statistic of `mann_kendall_trend_test` (app.py lines 711-717). -/
noncomputable def mannKendallZ (data : List ℚ) : ℝ :=
  if mannKendallS data > 0 then
    ((mannKendallS data : ℝ) - 1) / Real.sqrt ((mannKendallVar data.length : ℝ))
  else if mannKendallS data < 0 then
    ((mannKendallS data : ℝ) + 1) / Real.sqrt ((mannKendallVar data.length : ℝ))
  else 0

/-- The two-tailed p-value of `mann_kendall_trend_test` (app.py line 720). -/
noncomputable def mannKendallP (data : List ℚ) : ℝ :=
  2 * (1 - stdNormalCdf |mannKendallZ data|)

/-- `mann_kendall_trend_test` (app.py lines 695-731): returns the tuple
(S, Z, p_value, trend label). -/
noncomputable def mann_kendall_trend_test (data : List ℚ) : ℤ × ℝ × ℝ × String :=
  (mannKendallS data, mannKendallZ data, mannKendallP data,
   if mannKendallP data < 0.05 then
     (if mannKendallS data > 0 then "Increasing" else "Decreasing")
   else "No significant trend")

/-- The Mann-Kendall reference computation exactly as the spec phrases it
(spec section 4.2): S summed over all index pairs i < j, variance
n(n-1)(2n+5)/18, Z by the continuity-corrected formula, two-tailed p-value
from the standard normal CDF, and the three trend labels stated as
conjunctions on p and the sign of S. -/
noncomputable def mannKendallSpec (data : List ℚ) : ℤ × ℝ × ℝ × String :=
  let n := data.length
  let S : ℤ := ∑ p ∈ (Finset.range n ×ˢ Finset.range n).filter
      (fun p => p.1 < p.2),
      (if data.getD p.1 0 < data.getD p.2 0 then 1
       else if data.getD p.2 0 < data.getD p.1 0 then -1 else 0)
  let variance : ℝ := (n : ℝ) * ((n : ℝ) - 1) * (2 * (n : ℝ) + 5) / 18
  let Z : ℝ :=
    if 0 < S then ((S : ℝ) - 1) / Real.sqrt variance
    else if S < 0 then ((S : ℝ) + 1) / Real.sqrt variance
    else 0
  let pv : ℝ := 2 * (1 - stdNormalCdf |Z|)
  let trend : String :=
    if pv < 0.05 ∧ 0 < S then "Increasing"
    else if pv < 0.05 ∧ S < 0 then "Decreasing"
    else "No significant trend"
  (S, Z, pv, trend)

/-- The pandas centered rolling mean of the given window width used by
`time_series_decomposition` (app.py line 741).  Pandas' fixed-window
indexer with center=True shifts the window end by offset = (window-1)/2,
so position i carries the mean of the `window` consecutive values ending
at index i + (window-1)/2 (for even windows the centering is left-heavy:
window 2 averages rows i-1 and i), and is missing (None, pandas NaN)
where that window does not fully fit inside the series. -/
def rollingCenteredMean (window : ℕ) (xs : List ℚ) : List (Option ℚ) :=
  (List.range xs.length).map (fun i =>
    if window - 1 - (window - 1) / 2 ≤ i ∧ i + (window - 1) / 2 < xs.length then
      some ((∑ j ∈ Finset.range window,
        xs.getD (i - (window - 1 - (window - 1) / 2) + j) 0) / (window : ℚ))
    else none)

/-- `time_series_decomposition` (app.py lines 733-749) applied to the
per-year series (the groupby-sum step precedes this computation in the
source): window = min(3, n//2); when the window is at least 2 the trend is
the centered rolling mean and the detrended/residual columns are original
minus trend (None propagating where the trend is missing); otherwise the
trend is the original series and detrended/residual are 0.  Returns
(trend, detrended, residual). -/
def time_series_decomposition (xs : List ℚ) :
    List (Option ℚ) × List (Option ℚ) × List (Option ℚ) :=
  let window := min 3 (xs.length / 2)
  if window ≥ 2 then
    let trend := rollingCenteredMean window xs
    let detrended := (List.range xs.length).map (fun i =>
      (trend.getD i none).map (fun t => xs.getD i 0 - t))
    let residual := detrended
    (trend, detrended, residual)
  else
    (xs.map some, xs.map (fun _ => some 0), xs.map (fun _ => some 0))

end FloodsOKC

namespace FloodsOKC

/-- The damage sub-score written with the spec's orientation of the
threshold comparisons. -/
lemma damageScore_spec_form (loss : ℚ) :
    severityDamageScore loss =
      (if 50000000 ≤ loss then 3
       else if 10000000 ≤ loss then 2
       else if 1000000 ≤ loss then 1
       else 0) := by
  simp only [severityDamageScore, ge_iff_le]

/-- The casualty sub-score written the way the spec phrases the fatality
floor (raise to at least 2). -/
lemma casualtyScore_spec_form (f i : ℤ) :
    severityCasualtyScore f i =
      (if 0 < f then
        max 2 (if 10 ≤ f + i then 3
          else if 3 ≤ f + i then 2
          else if 1 ≤ f + i then 1
          else 0)
      else (if 10 ≤ f + i then 3
          else if 3 ≤ f + i then 2
          else if 1 ≤ f + i then 1
          else 0)) := by
  simp only [severityCasualtyScore, ge_iff_le, gt_iff_lt]
  split_ifs <;> first | rfl | omega

/-- Claim C1: for non-negative loss, fatality and injury counts,
`calculate_severity_level` returns exactly the tier computed by the
specification's reference algorithm. -/
theorem severity_matches_spec (loss : ℚ) (fatalities injuries : ℤ)
    (hl : 0 ≤ loss) (hf : 0 ≤ fatalities) (hi : 0 ≤ injuries) :
    calculate_severity_level loss fatalities injuries =
      severitySpec loss fatalities injuries := by
  simp only [calculate_severity_level, severitySpec, ge_iff_le,
    ← damageScore_spec_form, ← casualtyScore_spec_form]

/-- Witness for C1 at a concrete input. -/
theorem severity_matches_spec_witness :
    calculate_severity_level 2000000 1 0 = severitySpec 2000000 1 0 :=
  severity_matches_spec 2000000 1 0 (by norm_num) (by norm_num) (by norm_num)

/-- Claim C6: any event with at least one fatality is classified at least
"Medium", never "Low". -/
theorem severity_fatality_at_least_medium (loss : ℚ) (fatalities injuries : ℤ)
    (hf : 0 < fatalities) :
    calculate_severity_level loss fatalities injuries = "Medium" ∨
      calculate_severity_level loss fatalities injuries = "High" := by
  have hc : 2 ≤ severityCasualtyScore fatalities injuries := by
    simp only [severityCasualtyScore, gt_iff_lt]
    rw [if_pos hf]
    exact Nat.le_max_right _ _
  simp only [calculate_severity_level, ge_iff_le]
  split_ifs with h1 h2
  · right; rfl
  · left; rfl
  · exfalso; omega

/-- Witness for C6 at a concrete input. -/
theorem severity_fatality_at_least_medium_witness :
    calculate_severity_level 0 1 0 = "Medium" ∨
      calculate_severity_level 0 1 0 = "High" :=
  severity_fatality_at_least_medium 0 1 0 (by norm_num)

/-- Claim C7: the damage classification uses the fixed 1M / 10M / 50M
thresholds, with the stated values at 49,999,999 and 50,000,000. -/
theorem damage_classification_thresholds (loss : ℚ) (hl : 0 ≤ loss) :
    (50000000 ≤ loss → calculate_damage_classification loss = "Catastrophic") ∧
    (10000000 ≤ loss → loss < 50000000 →
      calculate_damage_classification loss = "Major") ∧
    (1000000 ≤ loss → loss < 10000000 →
      calculate_damage_classification loss = "Moderate") ∧
    (loss < 1000000 → calculate_damage_classification loss = "Minor") ∧
    calculate_damage_classification 49999999 = "Major" ∧
    calculate_damage_classification 50000000 = "Catastrophic" := by
  unfold calculate_damage_classification
  refine ⟨?_, ?_, ?_, ?_, by norm_num, by norm_num⟩ <;>
    intros <;> split_ifs <;> first | rfl | linarith

/-- Witness for C7 at a concrete input. -/
theorem damage_classification_thresholds_witness :
    calculate_damage_classification 2000000 = "Moderate" :=
  ((damage_classification_thresholds 2000000 (by norm_num)).2.2.1)
    (by norm_num) (by norm_num)

/-- Claim C10: `calculate_severity_level` is total: it always returns one of
the three tier strings, every loss below one million (negative losses
included) gets damage score 0, and in particular a loss of -5,000,000 with
no casualties is classified "Low". -/
theorem severity_total (damage : ℚ) (fatalities injuries : ℤ) :
    (calculate_severity_level damage fatalities injuries = "Low" ∨
     calculate_severity_level damage fatalities injuries = "Medium" ∨
     calculate_severity_level damage fatalities injuries = "High") ∧
    (damage < 1000000 → severityDamageScore damage = 0) ∧
    calculate_severity_level (-5000000) 0 0 = "Low" := by
  refine ⟨?_, ?_, by norm_num [calculate_severity_level, severityDamageScore,
    severityCasualtyScore]⟩
  · simp only [calculate_severity_level, ge_iff_le]
    split_ifs <;> simp
  · intro hd
    simp only [severityDamageScore, ge_iff_le]
    split_ifs <;> first | rfl | linarith

/-- Witness for C10 at a concrete input. -/
theorem severity_total_witness :
    (calculate_severity_level 0 0 0 = "Low" ∨
     calculate_severity_level 0 0 0 = "Medium" ∨
     calculate_severity_level 0 0 0 = "High") ∧
    severityDamageScore 0 = 0 :=
  ⟨(severity_total 0 0 0).1, (severity_total 0 0 0).2.1 (by norm_num)⟩

/-- Claim C4: `calculate_return_period` sorts the input descending (a
`≥`-sorted permutation of the input), returns exceedance probability
m/(n+1) and return period (n+1)/m at rank m = k+1, and on [10,30,20]
produces exactly the spec's example values. -/
theorem weibull_return_period_formulas (ds : List ℚ) (h : 1 ≤ ds.length) :
    (calculate_return_period ds).1.Sorted (· ≥ ·) ∧
    (calculate_return_period ds).1.Perm ds ∧
    (calculate_return_period ds).2.2 =
      (List.range ds.length).map
        (fun k : ℕ => ((k : ℚ) + 1) / ((ds.length : ℚ) + 1)) ∧
    (calculate_return_period ds).2.1 =
      (List.range ds.length).map
        (fun k : ℕ => ((ds.length : ℚ) + 1) / ((k : ℚ) + 1)) ∧
    calculate_return_period [10, 30, 20] =
      ([30, 20, 10], [4, 2, 4/3], [1/4, 1/2, 3/4]) := by
  refine ⟨List.sorted_insertionSort _ ds, List.perm_insertionSort _ ds, ?_, ?_, ?_⟩
  · simp only [calculate_return_period, List.length_insertionSort, List.map_map]
    refine List.map_congr_left ?_
    intro k hk
    simp only [Function.comp]
    push_cast
    ring
  · simp only [calculate_return_period, List.length_insertionSort, List.map_map]
    refine List.map_congr_left ?_
    intro k hk
    simp only [Function.comp]
    rw [one_div_div]
    push_cast
    ring
  · norm_num [calculate_return_period, List.insertionSort, List.orderedInsert,
      List.range_succ, Prod.ext_iff]

/-- Witness for C4: the concrete example from the spec. -/
theorem weibull_return_period_formulas_witness :
    calculate_return_period [10, 30, 20] =
      ([30, 20, 10], [4, 2, 4/3], [1/4, 1/2, 3/4]) :=
  (weibull_return_period_formulas [10, 30, 20] (by norm_num)).2.2.2.2

/-- Counterexample to claim C3 as stated: on input [10,30] the return
periods are [3, 3/2], which is not non-decreasing in rank. -/
theorem weibull_return_periods_not_nondecreasing :
    (calculate_return_period [10, 30]).2.1 = [3, 3/2] ∧
    ¬ List.Sorted (· ≤ ·) (calculate_return_period [10, 30]).2.1 := by
  constructor <;>
    norm_num [calculate_return_period, List.insertionSort, List.orderedInsert,
      List.range_succ, List.Sorted]

/-- Claim C3 (amended): the return periods produced by
`calculate_return_period` are monotonically non-increasing as rank
increases — rank 1, the largest value, gets the largest return period. -/
theorem weibull_return_periods_antitone (ds : List ℚ) (h : 1 ≤ ds.length) :
    List.Sorted (· ≥ ·) (calculate_return_period ds).2.1 := by
  simp only [calculate_return_period, List.length_insertionSort, List.map_map]
  rw [List.Sorted, List.pairwise_map]
  refine (List.pairwise_lt_range _).imp ?_
  intro a b hab
  simp only [Function.comp]
  rw [one_div_div, one_div_div]
  refine div_le_div_of_nonneg_left ?_ ?_ ?_ <;> push_cast <;>
    [positivity; positivity; exact_mod_cast by omega]

/-- Witness for C3's amended theorem at a concrete input. -/
theorem weibull_return_periods_antitone_witness :
    List.Sorted (· ≥ ·) (calculate_return_period [10, 30]).2.1 :=
  weibull_return_periods_antitone [10, 30] (by norm_num)

/-- Claim C5: the frequency-curve entry point returns three empty
sequences on the empty input (and the unguarded Weibull computation does
too). -/
theorem flood_frequency_curve_empty :
    calculate_flood_frequency_curve [] = ([], [], []) ∧
    calculate_return_period [] = ([], [], []) := by
  constructor <;> rfl

/-- The Gaussian density with mean 0 and variance 1, written as a constant
times exp(-x²/2). -/
lemma gaussianPDFReal_std_eq (t : ℝ) :
    gaussianPDFReal 0 1 t = (Real.sqrt (2 * π))⁻¹ * Real.exp (-(1/2) * t ^ 2) := by
  have h : -(t - 0) ^ 2 / (2 * ((1 : NNReal) : ℝ)) = -(1/2) * t ^ 2 := by
    push_cast
    ring
  rw [gaussianPDFReal, h]
  norm_num

/-- Half of the standard Gaussian mass lies above 0. -/
lemma integral_std_gaussian_Ioi :
    ∫ t in Set.Ioi (0 : ℝ), gaussianPDFReal 0 1 t = 1 / 2 := by
  have hfun : ∀ t ∈ Set.Ioi (0:ℝ), gaussianPDFReal 0 1 t
      = (Real.sqrt (2 * π))⁻¹ * Real.exp (-(1/2) * t ^ 2) :=
    fun t _ => gaussianPDFReal_std_eq t
  rw [setIntegral_congr_fun measurableSet_Ioi hfun]
  rw [MeasureTheory.integral_mul_left, integral_gaussian_Ioi]
  have h2 : π / (1/2) = 2 * π := by ring
  rw [h2]
  have h3 : Real.sqrt (2 * π) ≠ 0 := by positivity
  field_simp

/-- The standard normal CDF at 0 is one half. -/
lemma stdNormalCdf_zero : stdNormalCdf 0 = 1 / 2 := by
  have h1 : (∫ t in Set.Iic (0:ℝ), gaussianPDFReal 0 1 t)
      + ∫ t in Set.Ioi (0:ℝ), gaussianPDFReal 0 1 t
      = ∫ t, gaussianPDFReal 0 1 t :=
    intervalIntegral.integral_Iic_add_Ioi
      (integrable_gaussianPDFReal 0 1).integrableOn
      (integrable_gaussianPDFReal 0 1).integrableOn
  have h2 : ∫ t, gaussianPDFReal 0 1 t = 1 :=
    integral_gaussianPDFReal_eq_one 0 one_ne_zero
  have h3 := integral_std_gaussian_Ioi
  unfold stdNormalCdf
  linarith

/-- A sum over the ordered pairs of `range n` equals the source's nested
loop: outer index to n-2, inner from i+1 to n-1. -/
lemma sum_pairs_eq (n : ℕ) (f : ℕ → ℕ → ℤ) :
    ∑ p ∈ (Finset.range n ×ˢ Finset.range n).filter (fun p => p.1 < p.2),
        f p.1 p.2
      = ∑ i ∈ Finset.range (n - 1), ∑ j ∈ Finset.Ico (i + 1) n, f i j := by
  rw [Finset.sum_filter, Finset.sum_product]
  have h1 : ∀ i, (∑ j ∈ Finset.range n, if i < j then f i j else 0)
      = ∑ j ∈ Finset.Ico (i + 1) n, f i j := by
    intro i
    rw [← Finset.sum_filter]
    congr 1
    ext j
    simp only [Finset.mem_Ico, Finset.mem_filter, Finset.mem_range]
    omega
  simp only [h1]
  rcases n with _ | m
  · simp
  · rw [Finset.sum_range_succ]
    simp

/-- The loop-computed S statistic equals the spec's sum over all index
pairs i < j. -/
lemma mannKendallS_eq_pairs (data : List ℚ) :
    mannKendallS data =
      ∑ p ∈ (Finset.range data.length ×ˢ Finset.range data.length).filter
        (fun p => p.1 < p.2),
        (if data.getD p.1 0 < data.getD p.2 0 then 1
         else if data.getD p.2 0 < data.getD p.1 0 then -1 else 0 : ℤ) := by
  rw [sum_pairs_eq data.length
    (fun i j => if data.getD i 0 < data.getD j 0 then 1
      else if data.getD j 0 < data.getD i 0 then -1 else 0)]
  rw [mannKendallS]

/-- The rational variance, cast to `ℝ`, is the spec's real formula. -/
lemma mannKendallVar_cast (n : ℕ) :
    ((mannKendallVar n : ℚ) : ℝ)
      = (n : ℝ) * ((n : ℝ) - 1) * (2 * (n : ℝ) + 5) / 18 := by
  rw [mannKendallVar]
  push_cast
  ring

/-- When S = 0 the Z statistic is 0 and the two-tailed p-value is exactly 1,
via `stdNormalCdf 0 = 1/2`. -/
lemma mannKendallP_of_S_eq_zero (data : List ℚ) (h : mannKendallS data = 0) :
    mannKendallP data = 1 := by
  rw [mannKendallP, mannKendallZ, h]
  norm_num [stdNormalCdf_zero]

/-- Claim C2: for series of length at least 2, `mann_kendall_trend_test`
returns exactly the spec's reference computation (S over all pairs,
variance n(n-1)(2n+5)/18, continuity-corrected Z, two-tailed normal
p-value, and the three trend labels).  The only structural difference, the
trend label when p < 0.05 and S = 0, is unreachable because S = 0 forces
p = 1. -/
theorem mann_kendall_matches_spec (data : List ℚ) (h : 2 ≤ data.length) :
    mann_kendall_trend_test data = mannKendallSpec data := by
  have hS := mannKendallS_eq_pairs data
  have hvar := mannKendallVar_cast data.length
  simp only [mannKendallSpec]
  rw [← hS, ← hvar]
  refine Prod.ext rfl (Prod.ext ?_ (Prod.ext ?_ ?_))
  · rw [mann_kendall_trend_test, mannKendallZ]
  · rw [mann_kendall_trend_test, mannKendallP, mannKendallZ]
  · rw [mann_kendall_trend_test]
    simp only [gt_iff_lt]
    have hpv : (2 * (1 - stdNormalCdf
        |if 0 < mannKendallS data then
            ((mannKendallS data : ℝ) - 1) / Real.sqrt ((mannKendallVar data.length : ℚ) : ℝ)
          else if mannKendallS data < 0 then
            ((mannKendallS data : ℝ) + 1) / Real.sqrt ((mannKendallVar data.length : ℚ) : ℝ)
          else 0|)) = mannKendallP data := by
      rw [mannKendallP, mannKendallZ]
    rw [hpv]
    by_cases hp : mannKendallP data < 0.05
    · by_cases hs : 0 < mannKendallS data
      · rw [if_pos hp, if_pos hs, if_pos ⟨hp, hs⟩]
      · by_cases hs2 : mannKendallS data < 0
        · rw [if_pos hp, if_neg hs, if_neg (fun hc => hs hc.2), if_pos ⟨hp, hs2⟩]
        · exfalso
          have h0 : mannKendallS data = 0 := by omega
          rw [mannKendallP_of_S_eq_zero data h0] at hp
          norm_num at hp
    · rw [if_neg hp, if_neg (fun hc => hp hc.1), if_neg (fun hc => hp hc.1)]

/-- Witness for C2 at a concrete input. -/
theorem mann_kendall_matches_spec_witness :
    mann_kendall_trend_test [1, 2, 3] = mannKendallSpec [1, 2, 3] :=
  mann_kendall_matches_spec [1, 2, 3] (by norm_num)

/-- Claim C9: the variance n(n-1)(2n+5)/18 vanishes exactly when n ≤ 1, and
on any series of length below 2 the test totalises to S = 0, Z = 0,
p-value 1 and "No significant trend" (no division by a zero standard
deviation is ever reached, since S = 0 takes the Z = 0 branch). -/
theorem mann_kendall_small_n :
    (∀ n : ℕ, mannKendallVar n = 0 ↔ n ≤ 1) ∧
    (∀ data : List ℚ, data.length < 2 →
      mann_kendall_trend_test data = (0, 0, 1, "No significant trend")) := by
  constructor
  · intro n
    constructor
    · intro h
      by_contra hn
      push_neg at hn
      have h2 : (2 : ℚ) ≤ (n : ℚ) := by exact_mod_cast hn
      have hpos : (0 : ℚ) < mannKendallVar n := by
        rw [mannKendallVar]
        have ha : (0:ℚ) < (n:ℚ) := by linarith
        have hb : (0:ℚ) < (n:ℚ) - 1 := by linarith
        have hc : (0:ℚ) < 2 * (n:ℚ) + 5 := by linarith
        positivity
      rw [h] at hpos
      exact lt_irrefl 0 hpos
    · intro h
      interval_cases n <;> norm_num [mannKendallVar]
  · intro data hlen
    have hS : mannKendallS data = 0 := by
      rw [mannKendallS]
      have h0 : data.length - 1 = 0 := by omega
      rw [h0]
      simp
    have hZ : mannKendallZ data = 0 := by
      rw [mannKendallZ, hS]
      norm_num
    have hP : mannKendallP data = 1 := mannKendallP_of_S_eq_zero data hS
    rw [mann_kendall_trend_test, hS, hZ, hP]
    norm_num

/-- Witness for C9 at concrete inputs. -/
theorem mann_kendall_small_n_witness :
    mannKendallVar 0 = 0 ∧
    mann_kendall_trend_test [] = (0, 0, 1, "No significant trend") :=
  ⟨(mann_kendall_small_n.1 0).mpr (by norm_num),
   mann_kendall_small_n.2 [] (by norm_num)⟩

/-- The sum of the first w entries of a list as a range-indexed sum. -/
lemma take_sum_eq_range (w : ℕ) (ys : List ℚ) (h : w ≤ ys.length) :
    (ys.take w).sum = ∑ j ∈ Finset.range w, ys.getD j 0 := by
  induction w generalizing ys with
  | zero => simp
  | succ m ih =>
    cases ys with
    | nil => simp at h
    | cons a t =>
      rw [List.take_succ_cons, List.sum_cons, Finset.sum_range_succ']
      simp only [List.getD_cons_succ, List.getD_cons_zero]
      rw [ih t (by simpa using h)]
      ring

/-- Indexing into a dropped list shifts the index. -/
lemma drop_getD (xs : List ℚ) (lo j : ℕ) :
    (xs.drop lo).getD j 0 = xs.getD (lo + j) 0 := by
  rw [List.getD_eq_getElem?_getD, List.getD_eq_getElem?_getD, List.getElem?_drop]

/-- A window sum starting at `lo` equals the sum of the drop/take slice. -/
lemma slice_sum (xs : List ℚ) (lo w : ℕ) (h : lo + w ≤ xs.length) :
    ((xs.drop lo).take w).sum = ∑ j ∈ Finset.range w, xs.getD (lo + j) 0 := by
  rw [take_sum_eq_range w _ (by rw [List.length_drop]; omega)]
  exact Finset.sum_congr rfl (fun j _ => drop_getD xs lo j)

/-- Claim C8: with window w = min(3, n/2): when w ≥ 2 the trend at
position i is the mean of the w consecutive values centered at i (the
slice of width w ending at index i + (w-1)/2, so left edge
i - (w-1-(w-1)/2); for odd w this is symmetric about i, for w = 2 pandas
centers left-heavy over rows i-1 and i) whenever that window fits inside
the series, and is missing otherwise; the residual equals original minus
trend wherever the trend is defined.  When w < 2 the trend is the
original series and the residual is 0 everywhere. -/
theorem time_series_decomposition_spec (xs : List ℚ) :
    (2 ≤ min 3 (xs.length / 2) →
      (∀ i : ℕ,
        (time_series_decomposition xs).1.getD i none =
          (if min 3 (xs.length / 2) - 1 - (min 3 (xs.length / 2) - 1) / 2 ≤ i ∧
              i + (min 3 (xs.length / 2) - 1) / 2 < xs.length then
            some ((((xs.drop
              (i - (min 3 (xs.length / 2) - 1 - (min 3 (xs.length / 2) - 1) / 2))).take
              (min 3 (xs.length / 2))).sum) / ((min 3 (xs.length / 2) : ℕ) : ℚ))
          else none)) ∧
      (∀ i : ℕ, ∀ c : ℚ,
        (time_series_decomposition xs).1.getD i none = some c →
          (time_series_decomposition xs).2.2.getD i none =
            some (xs.getD i 0 - c))) ∧
    (min 3 (xs.length / 2) < 2 →
      (time_series_decomposition xs).1 = xs.map some ∧
      (time_series_decomposition xs).2.2 = xs.map (fun _ => some 0)) := by
  constructor
  · intro hw
    constructor
    · intro i
      simp only [time_series_decomposition]
      rw [if_pos hw]
      by_cases hi : i < xs.length
      · rw [rollingCenteredMean,
          List.getD_eq_getElem _ _ (by simpa using hi),
          List.getElem_map, List.getElem_range]
        by_cases hc : min 3 (xs.length / 2) - 1 - (min 3 (xs.length / 2) - 1) / 2 ≤ i ∧
            i + (min 3 (xs.length / 2) - 1) / 2 < xs.length
        · rw [if_pos hc, if_pos hc, slice_sum xs _ _ (by omega)]
        · rw [if_neg hc, if_neg hc]
      · rw [List.getD_eq_default _ _ (by simp [rollingCenteredMean]; omega),
          if_neg (by omega)]
    · intro i c hc
      simp only [time_series_decomposition] at hc ⊢
      rw [if_pos hw] at hc ⊢
      have hi : i < xs.length := by
        by_contra hni
        rw [List.getD_eq_default _ _ (by simp [rollingCenteredMean]; omega)] at hc
        exact Option.noConfusion hc
      rw [List.getD_eq_getElem _ _ (by simpa using hi),
        List.getElem_map, List.getElem_range, hc]
      rfl
  · intro hw
    simp only [time_series_decomposition]
    rw [if_neg (by omega)]
    exact ⟨rfl, rfl⟩

/-- Witness for C8 at concrete inputs covering both reachable windows:
the six-year series 1..6 has window 3 and trend (1+2+3)/3 = 2 at
position 1; the four-year series 1..4 has window 2, whose left-heavy
centering leaves position 0 missing and puts (1+2)/2 at position 1 and
(3+4)/2 at the last position. -/
theorem time_series_decomposition_spec_witness :
    (time_series_decomposition [(1:ℚ), 2, 3, 4, 5, 6]).1.getD 1 none = some 2 ∧
    (time_series_decomposition [(1:ℚ), 2, 3, 4]).1.getD 0 none = none ∧
    (time_series_decomposition [(1:ℚ), 2, 3, 4]).1.getD 1 none = some (3/2) ∧
    (time_series_decomposition [(1:ℚ), 2, 3, 4]).1.getD 3 none = some (7/2) := by
  have h6 := ((time_series_decomposition_spec [(1:ℚ), 2, 3, 4, 5, 6]).1
    (by norm_num)).1 1
  have h40 := ((time_series_decomposition_spec [(1:ℚ), 2, 3, 4]).1
    (by norm_num)).1 0
  have h41 := ((time_series_decomposition_spec [(1:ℚ), 2, 3, 4]).1
    (by norm_num)).1 1
  have h43 := ((time_series_decomposition_spec [(1:ℚ), 2, 3, 4]).1
    (by norm_num)).1 3
  refine ⟨?_, ?_, ?_, ?_⟩
  · rw [h6]; norm_num
  · rw [h40]; norm_num
  · rw [h41]; norm_num
  · rw [h43]; norm_num

end FloodsOKC
